import Mathlib

/-!
Verification of the orchestrator and self-evolving agent of the
AI-Coding-Assistant backend, as a shallow embedding in Lean.

Backend adapters are identified by their registry name (the keys of the
orchestrator llms dictionary).  A Python reference to an adapter object is
embedded as an Option String: some name is a bound adapter, none is the
Python None value.  Each outcome of an external LLM call is supplied by an
oracle parameter, indexed by the number of generate calls made so far.
-/

namespace AICA

/-- Orchestrator registry state after initialization: the registry keys in
insertion order, the primary backend, and the fallback-enabled flag read
from settings. -/
structure Orch where
  llms : List String
  primary_llm : String
  enable_fallback : Bool
deriving DecidableEq

/-- The mutable current-backend binding of each of the five agents
(code_generator.llm, code_reviewer.llm, system_architect.llm,
github_mcp.llm, self_evolving.llm).  none embeds Python None. -/
structure AgentsState where
  code_generator : Option String
  code_reviewer : Option String
  system_architect : Option String
  github_mcp : Option String
  self_evolving : Option String
deriving DecidableEq

/-- Faults that route_request can surface: the ValueError for an unknown
task type, and a provider fault carrying its message. -/
inductive RouteError where
  | unknownTaskType (task_type : String)
  | providerError (msg : String)
deriving DecidableEq

/-- Outcome of a dispatched agent operation: the success case records the
backend name the result is attributed to (response model field). -/
inductive RouteRes where
  | ok (model_used : String)
  | err (e : RouteError)
deriving DecidableEq

/-- Full observable outcome of one route_request call: the final agent
bindings, the returned or raised value, and the trace of bindings on which
generate was invoked, in call order. -/
structure RouteOut where
  agents : AgentsState
  res : RouteRes
  calls : List (Option String)
deriving DecidableEq

/-- Message of the AttributeError raised when generate or stream_generate
is invoked on a binding that is Python None. -/
def noneTypeError : String := "AttributeError: NoneType has no attribute generate"

/-- Python truthiness of the Optional[str] model argument: None and the
empty string are falsy. -/
def pyTruthy : Option String → Bool
  | none => false
  | some s => s != ""

/-- orchestrator.py lines 126-129: target_llm is the registry entry for the
requested model if the name is truthy and registered, else the primary. -/
def resolve_target (o : Orch) (model : Option String) : String :=
  match model with
  | some s => if s != "" && o.llms.contains s then s else o.primary_llm
  | none => o.primary_llm

/-- One agent-level generate call on the given binding.  llmFault k b gives
the fault message, if any, of the k-th generate call when executed by the
backend named b; a call on a None binding raises the AttributeError. -/
def call_generate (llmFault : Nat → String → Option String) (k : Nat)
    (llm : Option String) : RouteRes :=
  match llm with
  | none => .err (.providerError noneTypeError)
  | some b =>
    match llmFault k b with
    | none => .ok b
    | some msg => .err (.providerError msg)

/-- A dispatch that does not touch any binding: the agent operation runs on
the binding the agent currently holds (the eight task types whose branch in
route_request performs no swap). -/
def dispatch_fixed (llmFault : Nat → String → Option String) (k : Nat)
    (st : AgentsState) (cur : Option String) : RouteOut :=
  ⟨st, call_generate llmFault k cur, [cur]⟩

/-- The generate branch with a truthy model (orchestrator.py lines 132-144):
save the binding, set it to the target, call, and restore it only on the
success path and only when the saved value is truthy. -/
def dispatch_swap_generator (llmFault : Nat → String → Option String) (k : Nat)
    (st : AgentsState) (target : String) : RouteOut :=
  let original_llm := st.code_generator
  let st1 := { st with code_generator := some target }
  match call_generate llmFault k st1.code_generator with
  | .ok v =>
    ⟨if original_llm.isSome then { st1 with code_generator := original_llm } else st1,
     .ok v, [st1.code_generator]⟩
  | .err e => ⟨st1, .err e, [st1.code_generator]⟩

/-- The review branch with a truthy model (orchestrator.py lines 146-156). -/
def dispatch_swap_reviewer (llmFault : Nat → String → Option String) (k : Nat)
    (st : AgentsState) (target : String) : RouteOut :=
  let original_llm := st.code_reviewer
  let st1 := { st with code_reviewer := some target }
  match call_generate llmFault k st1.code_reviewer with
  | .ok v =>
    ⟨if original_llm.isSome then { st1 with code_reviewer := original_llm } else st1,
     .ok v, [st1.code_reviewer]⟩
  | .err e => ⟨st1, .err e, [st1.code_reviewer]⟩

/-- The architecture branch with a truthy model (orchestrator.py lines
161-171). -/
def dispatch_swap_architect (llmFault : Nat → String → Option String) (k : Nat)
    (st : AgentsState) (target : String) : RouteOut :=
  let original_llm := st.system_architect
  let st1 := { st with system_architect := some target }
  match call_generate llmFault k st1.system_architect with
  | .ok v =>
    ⟨if original_llm.isSome then { st1 with system_architect := original_llm } else st1,
     .ok v, [st1.system_architect]⟩
  | .err e => ⟨st1, .err e, [st1.system_architect]⟩

/-- The body of the try block of route_request (orchestrator.py lines
131-195): per-task dispatch, with the temporary swap of the agent llm
binding for the generate, review and architecture tasks only.  k is the
number of generate calls already made (oracle index). -/
def route_attempt (o : Orch) (llmFault : Nat → String → Option String) (k : Nat)
    (st : AgentsState) (task_type : String) (model : Option String) : RouteOut :=
  let target := resolve_target o model
  if task_type = "generate" then
    if pyTruthy model then dispatch_swap_generator llmFault k st target
    else dispatch_fixed llmFault k st st.code_generator
  else if task_type = "review" then
    if pyTruthy model then dispatch_swap_reviewer llmFault k st target
    else dispatch_fixed llmFault k st st.code_reviewer
  else if task_type = "quick-check" then
    dispatch_fixed llmFault k st st.code_reviewer
  else if task_type = "architecture" then
    if pyTruthy model then dispatch_swap_architect llmFault k st target
    else dispatch_fixed llmFault k st st.system_architect
  else if task_type = "suggest-patterns" then
    dispatch_fixed llmFault k st st.system_architect
  else if task_type = "optimize-architecture" then
    dispatch_fixed llmFault k st st.system_architect
  else if task_type = "analyze-repo" then
    dispatch_fixed llmFault k st st.github_mcp
  else if task_type = "pr-description" then
    dispatch_fixed llmFault k st st.github_mcp
  else if task_type = "code-search" then
    dispatch_fixed llmFault k st st.github_mcp
  else if task_type = "learn" then
    dispatch_fixed llmFault k st st.self_evolving
  else if task_type = "adapt" then
    dispatch_fixed llmFault k st st.self_evolving
  else
    ⟨st, .err (.unknownTaskType task_type), []⟩

/-- The fallback condition of the except clause (orchestrator.py line 201
and line 234): settings.enable_fallback and model != openai and openai in
self.llms.  It tests the requested model argument, not the backend the
failed attempt executed on. -/
def fallback_guard (o : Orch) (model : Option String) : Bool :=
  o.enable_fallback && model != some "openai" && o.llms.contains "openai"

/-- route_request with explicit recursion fuel: the recursive fallback call
route_request(task_type, model=openai, ...) consumes one unit.  Because the
recursive call passes model = openai, its own guard is false and the
recursion stops there (lemma route_fuel_openai below), so any fuel of at
least one gives the behavior of the source. -/
def route_fuel (o : Orch) (llmFault : Nat → String → Option String)
    (task_type : String) :
    Nat → Nat → AgentsState → Option String → RouteOut
  | 0, k, st, model => route_attempt o llmFault k st task_type model
  | fuel+1, k, st, model =>
    let a := route_attempt o llmFault k st task_type model
    match a.res with
    | .ok _ => a
    | .err _ =>
      if fallback_guard o model then
        let b := route_fuel o llmFault task_type fuel (k + a.calls.length)
          a.agents (some "openai")
        ⟨b.agents, b.res, a.calls ++ b.calls⟩
      else a

/-- orchestrator.py lines 105-205: route_request. -/
def route_request (o : Orch) (llmFault : Nat → String → Option String)
    (st : AgentsState) (task_type : String) (model : Option String) : RouteOut :=
  route_fuel o llmFault task_type 1 0 st model

/-- Behavior of one streaming call: the text fragments produced, then an
optional fault message if the stream ends by raising. -/
structure StreamBeh where
  chunks : List String
  fault : Option String
deriving DecidableEq

/-- orchestrator.py line 221: target_llm = self.llms.get(model) if model
else self.primary_llm.  A truthy unregistered name yields None. -/
def stream_target (o : Orch) (model : Option String) : Option String :=
  match model with
  | some s =>
    if s != "" then (if o.llms.contains s then some s else none)
    else some o.primary_llm
  | none => some o.primary_llm

/-- One streaming call on the given binding; sb k b is the behavior of the
k-th streaming call on backend b; a None binding raises at once. -/
def call_stream (sb : Nat → String → StreamBeh) (k : Nat)
    (llm : Option String) : StreamBeh :=
  match llm with
  | none => ⟨[], some noneTypeError⟩
  | some b => sb k b

/-- The terminal text fragment yielded for a stream fault. -/
def error_fragment (e : String) : String := "\n\nError: " ++ e

/-- orchestrator.py lines 207-247: stream_generate.  Returns the full
sequence of yielded fragments and the final agent bindings (the finally
block always restores the code generator binding). -/
def stream_generate (o : Orch) (sb : Nat → String → StreamBeh)
    (st : AgentsState) (model : Option String) : List String × AgentsState :=
  let target := stream_target o model
  let original_llm := st.code_generator
  let st1 := { st with code_generator := target }
  let b1 := call_stream sb 0 st1.code_generator
  match b1.fault with
  | none => (b1.chunks, { st1 with code_generator := original_llm })
  | some e =>
    if fallback_guard o model then
      let st2 := { st1 with code_generator := some "openai" }
      let b2 := call_stream sb 1 st2.code_generator
      match b2.fault with
      | none => (b1.chunks ++ b2.chunks, { st2 with code_generator := original_llm })
      | some fe =>
        (b1.chunks ++ b2.chunks ++ [error_fragment fe],
         { st2 with code_generator := original_llm })
    else (b1.chunks ++ [error_fragment e], { st1 with code_generator := original_llm })

/-- The configuration facts the constructor reads: per-backend key presence,
whether each adapter constructor succeeds (external outcome), the default
model name, and the fallback flag. -/
structure Settings where
  anthropic_api_key : Bool
  openai_api_key : Bool
  gemini_api_key : Bool
  claude_ctor_ok : Bool
  openai_ctor_ok : Bool
  gemini_ctor_ok : Bool
  default_model : String
  gh_enable_fallback : Bool
deriving DecidableEq

/-- orchestrator.py lines 32-74: build the registry in configuration order
claude, openai, gemini; a backend is added when its key is present and its
constructor does not raise. -/
def init_llms (s : Settings) : List String :=
  (if s.anthropic_api_key && s.claude_ctor_ok then ["claude"] else []) ++
  (if s.openai_api_key && s.openai_ctor_ok then ["openai"] else []) ++
  (if s.gemini_api_key && s.gemini_ctor_ok then ["gemini"] else [])

/-- Outcome of the constructor: the fatal RuntimeError when the registry is
empty, or the ready orchestrator. -/
inductive InitResult where
  | noBackendsAvailable
  | ready (o : Orch)
deriving DecidableEq

/-- orchestrator.py lines 76-93: raise if no llms were configured; else
primary_llm = self.llms.get(settings.default_model) or first value. -/
def orchestrator_init (s : Settings) : InitResult :=
  match init_llms s with
  | [] => .noBackendsAvailable
  | first :: rest =>
    let llms := first :: rest
    .ready ⟨llms,
      if llms.contains s.default_model then s.default_model else first,
      s.gh_enable_fallback⟩

/-- The previous_interaction payload stored with a feedback record; the
adapt filter reads only its optional task_type field, the rest is carried
opaquely. -/
structure PrevInteraction where
  task_type : Option String
  payload : String
deriving DecidableEq

/-- The learning dict appended to self_evolving.interaction_history
(self_evolving.py lines 74-81); the InteractionRecord of the spec. -/
structure InteractionRecord where
  timestamp : String
  analysis : String
  previous_interaction : PrevInteraction
  feedback : String
  outcome : String
  model_used : String
deriving DecidableEq

/-- The fields of a successful provider response the agents read. -/
structure GenResponse where
  content : String
  model : String
deriving DecidableEq

/-- Outcome of one llm.generate call made by the self-evolving agent, as a
function of the system and user prompts it was given. -/
inductive GenOutcome where
  | ok (resp : GenResponse)
  | err (msg : String)
deriving DecidableEq

/-- Result of learn_from_feedback: the learning record returned, or the
propagated fault message. -/
inductive LearnResult where
  | ok (learning : InteractionRecord)
  | err (msg : String)
deriving DecidableEq

/-- self_evolving.py lines 58-64: the fixed user prompt of the learn call. -/
def learn_user_prompt : String :=
  "Analyze this interaction and provide: what worked well, what could be " ++
  "improved, specific lessons learned, improved strategy, patterns to remember"

/-- self_evolving.py lines 31-90: learn_from_feedback.  render embeds the
template collaborator building the system prompt (prompt-template text is
an external collaborator); gen gives the outcome of the llm.generate call
on the prompts it receives; now is the timestamp.  Returns the history
after the call together with the returned or raised value. -/
def learn_from_feedback (render : PrevInteraction → String → String → String)
    (gen : String → String → GenOutcome)
    (hist : List InteractionRecord) (previous_interaction : PrevInteraction)
    (feedback : String) (outcome : String) (now : String) :
    List InteractionRecord × LearnResult :=
  let system_prompt := render previous_interaction feedback outcome
  match gen system_prompt learn_user_prompt with
  | .ok resp =>
    let learning : InteractionRecord :=
      ⟨now, resp.content, previous_interaction, feedback, outcome, resp.model⟩
    (hist ++ [learning], .ok learning)
  | .err e => (hist, .err e)

/-- self_evolving.py lines 112-114 without the final slice: the records of
the history whose previous_interaction task_type equals the requested task
type, in insertion order. -/
def matching_history (hist : List InteractionRecord) (task_type : String) :
    List InteractionRecord :=
  hist.filter (fun h => h.previous_interaction.task_type == some task_type)

/-- self_evolving.py lines 112-115: the filtered history followed by the
Python slice [-5:], keeping the last five matching records. -/
def relevant_history (hist : List InteractionRecord) (task_type : String) :
    List InteractionRecord :=
  (matching_history hist task_type).drop ((matching_history hist task_type).length - 5)

/-- self_evolving.py lines 117-122: the adapt system prompt, built from the
task type and exactly the relevant history; dumps embeds json.dumps. -/
def adapt_system_prompt (dumps : List InteractionRecord → String)
    (task_type : String) (relevant : List InteractionRecord) : String :=
  "You are a self-improving AI agent.\nAnalyze past performance and adapt " ++
  "strategy for better outcomes.\n\nTask Type: " ++ task_type ++
  "\nRecent History: " ++
  (if relevant.isEmpty then "No history yet" else dumps relevant) ++ "\n"

/-- self_evolving.py lines 124-133: the adapt user prompt. -/
def adapt_user_prompt (task_type : String) (context : Option String) : String :=
  "Based on past interactions, provide an adapted strategy for " ++ task_type ++
  " tasks.\n\n" ++
  (match context with
   | some c => "Additional Context: " ++ c
   | none => "") ++
  "\n\nInclude: key insights, adapted approach, improvements, success metrics"

/-- The dict returned by adapt_strategy (self_evolving.py lines 143-148). -/
structure AdaptOut where
  adapted_strategy : String
  task_type : String
  based_on_interactions : Nat
  model_used : String
deriving DecidableEq

/-- Result of adapt_strategy: the returned dict or the propagated fault. -/
inductive AdaptResult where
  | ok (out : AdaptOut)
  | err (msg : String)
deriving DecidableEq

/-- self_evolving.py lines 92-152: adapt_strategy. -/
def adapt_strategy (dumps : List InteractionRecord → String)
    (gen : String → String → GenOutcome)
    (hist : List InteractionRecord) (task_type : String)
    (context : Option String) : AdaptResult :=
  let relevant := relevant_history hist task_type
  let system_prompt := adapt_system_prompt dumps task_type relevant
  match gen system_prompt (adapt_user_prompt task_type context) with
  | .ok resp => .ok ⟨resp.content, task_type, relevant.length, resp.model⟩
  | .err e => .err e

/-- The eleven task types route_request dispatches (section 6 of the spec). -/
def knownTaskTypes : List String :=
  ["generate", "review", "quick-check", "architecture", "suggest-patterns",
   "optimize-architecture", "analyze-repo", "pr-description", "code-search",
   "learn", "adapt"]

/-- The retry attempt the except clause makes: the whole route, re-entered
with model = openai, starting from the agent state the first attempt left
behind and continuing the oracle index. -/
def fallback_attempt (o : Orch) (llmFault : Nat → String → Option String)
    (st : AgentsState) (task_type : String) (model : Option String) : RouteOut :=
  route_attempt o llmFault (route_attempt o llmFault 0 st task_type model).calls.length
    (route_attempt o llmFault 0 st task_type model).agents task_type (some "openai")

/-- Registry claude and gemini, primary claude, fallback disabled. -/
def orchCG : Orch := ⟨["claude", "gemini"], "claude", false⟩

/-- Registry claude and openai, primary claude, fallback enabled. -/
def orchCO : Orch := ⟨["claude", "openai"], "claude", true⟩

/-- Registry holding only openai, primary openai, fallback enabled. -/
def orchO : Orch := ⟨["openai"], "openai", true⟩

/-- All five agents bound to claude. -/
def agentsClaude : AgentsState :=
  ⟨some "claude", some "claude", some "claude", some "claude", some "claude"⟩

/-- All five agents bound to openai. -/
def agentsOpenai : AgentsState :=
  ⟨some "openai", some "openai", some "openai", some "openai", some "openai"⟩

/-- Oracle: every generate call on gemini faults, all others succeed. -/
def geminiDown : Nat → String → Option String :=
  fun _ b => if b = "gemini" then some "gemini down" else none

/-- Oracle: generate on claude faults, all others succeed. -/
def claudeDown : Nat → String → Option String :=
  fun _ b => if b = "claude" then some "claude down" else none

/-- Oracle: every generate call faults, with a message that distinguishes
the first call from later ones. -/
def allDown : Nat → String → Option String :=
  fun k _ => some (if k = 0 then "first failure" else "second failure")

/-- Oracle: every generate call succeeds. -/
def allUp : Nat → String → Option String := fun _ _ => none

/-- Stream behavior: claude streams one fragment and completes, any other
backend faults at once. -/
def sbClaudeOnly : Nat → String → StreamBeh :=
  fun _ b => if b = "claude" then ⟨["claude fragment"], none⟩ else ⟨[], some "other down"⟩

/-- Stream behavior: every stream yields two fragments and then faults. -/
def sbMidFault : Nat → String → StreamBeh :=
  fun _ _ => ⟨["part one", "part two"], some "rate limited"⟩

/-- A feedback record fixture with the given timestamp and task type. -/
def histRec (ts : String) (tt : String) : InteractionRecord :=
  ⟨ts, "analysis", ⟨some tt, "payload"⟩, "feedback", "success", "claude"⟩

/-- Eight records, seven of them for the generate task type. -/
def hist8 : List InteractionRecord :=
  [histRec "t1" "generate", histRec "t2" "review", histRec "t3" "generate",
   histRec "t4" "generate", histRec "t5" "generate", histRec "t6" "generate",
   histRec "t7" "generate", histRec "t8" "generate"]

/-- A render collaborator fixture returning a fixed system prompt. -/
def renderFix : PrevInteraction → String → String → String := fun _ _ _ => "system prompt"

/-- A generate outcome fixture: success with fixed content and model. -/
def genOk : String → String → GenOutcome := fun _ _ => .ok ⟨"analysis text", "claude model"⟩

/-- A generate outcome fixture: fault with a fixed message. -/
def genErr : String → String → GenOutcome := fun _ _ => .err "provider down"

/-- A json.dumps fixture: concatenates the timestamps of the records. -/
def dumpsFix : List InteractionRecord → String :=
  fun l => String.join (l.map (fun h => h.timestamp))

/-- Settings fixture: claude and openai keys present and constructing,
gemini key absent, default model name gemini (not in the registry),
fallback enabled. -/
def settingsW : Settings := ⟨true, true, false, true, true, true, "gemini", true⟩

theorem contains_iff (l : List String) (a : String) : l.contains a = true ↔ a ∈ l :=
  List.elem_iff

theorem fallback_guard_openai (o : Orch) : fallback_guard o (some "openai") = false := by
  simp [fallback_guard]

/-- A route re-entered with model = openai never recurses further: its
fallback guard is false, so any amount of fuel gives the plain attempt. -/
theorem route_fuel_openai (o : Orch) (llmFault : Nat → String → Option String)
    (task_type : String) (fuel k : Nat) (st : AgentsState) :
    route_fuel o llmFault task_type fuel k st (some "openai") =
      route_attempt o llmFault k st task_type (some "openai") := by
  cases fuel with
  | zero => rfl
  | succ n =>
    simp only [route_fuel, fallback_guard_openai]
    cases (route_attempt o llmFault k st task_type (some "openai")).res <;> simp

/-- route_request on a successful first attempt is that attempt. -/
theorem route_request_of_ok (o : Orch) (llmFault : Nat → String → Option String)
    (st : AgentsState) (task_type : String) (model : Option String) (v : String)
    (h : (route_attempt o llmFault 0 st task_type model).res = .ok v) :
    route_request o llmFault st task_type model =
      route_attempt o llmFault 0 st task_type model := by
  simp only [route_request, route_fuel, h]

/-- route_request on a failed first attempt with the fallback guard false
raises that failure: it is the plain attempt. -/
theorem route_request_of_err_nofb (o : Orch) (llmFault : Nat → String → Option String)
    (st : AgentsState) (task_type : String) (model : Option String) (e : RouteError)
    (h : (route_attempt o llmFault 0 st task_type model).res = .err e)
    (hg : fallback_guard o model = false) :
    route_request o llmFault st task_type model =
      route_attempt o llmFault 0 st task_type model := by
  simp only [route_request, route_fuel, h, hg, Bool.false_eq_true, if_false]

/-- route_request on a failed first attempt with the fallback guard true is
the first attempt followed by exactly the one retry targeting openai. -/
theorem route_request_of_err_fb (o : Orch) (llmFault : Nat → String → Option String)
    (st : AgentsState) (task_type : String) (model : Option String) (e : RouteError)
    (h : (route_attempt o llmFault 0 st task_type model).res = .err e)
    (hg : fallback_guard o model = true) :
    route_request o llmFault st task_type model =
      ⟨(fallback_attempt o llmFault st task_type model).agents,
       (fallback_attempt o llmFault st task_type model).res,
       (route_attempt o llmFault 0 st task_type model).calls ++
         (fallback_attempt o llmFault st task_type model).calls⟩ := by
  simp only [route_request, route_fuel, h, hg, if_true, route_fuel_openai,
    fallback_attempt, Nat.zero_add]

theorem dispatch_fixed_calls (llmFault : Nat → String → Option String) (k : Nat)
    (st : AgentsState) (cur : Option String) :
    (dispatch_fixed llmFault k st cur).calls = [cur] := rfl

theorem dispatch_swap_generator_calls (llmFault : Nat → String → Option String)
    (k : Nat) (st : AgentsState) (target : String) :
    (dispatch_swap_generator llmFault k st target).calls = [some target] := by
  unfold dispatch_swap_generator
  dsimp only
  split <;> rfl

theorem dispatch_swap_reviewer_calls (llmFault : Nat → String → Option String)
    (k : Nat) (st : AgentsState) (target : String) :
    (dispatch_swap_reviewer llmFault k st target).calls = [some target] := by
  unfold dispatch_swap_reviewer
  dsimp only
  split <;> rfl

theorem dispatch_swap_architect_calls (llmFault : Nat → String → Option String)
    (k : Nat) (st : AgentsState) (target : String) :
    (dispatch_swap_architect llmFault k st target).calls = [some target] := by
  unfold dispatch_swap_architect
  dsimp only
  split <;> rfl

set_option maxHeartbeats 1000000 in
/-- Every single dispatch attempt makes at most one generate call. -/
theorem route_attempt_calls_le_one (o : Orch) (llmFault : Nat → String → Option String)
    (k : Nat) (st : AgentsState) (task_type : String) (model : Option String) :
    (route_attempt o llmFault k st task_type model).calls.length ≤ 1 := by
  simp only [route_attempt]
  repeat' split
  all_goals
    simp only [dispatch_fixed_calls, dispatch_swap_generator_calls,
      dispatch_swap_reviewer_calls, dispatch_swap_architect_calls,
      List.length_singleton, List.length_nil, le_refl, Nat.zero_le]

/-- Dispatch on a task type outside the known eleven raises the unknown
task type error, touches no agent binding, and makes no generate call. -/
theorem route_attempt_unknown (o : Orch) (llmFault : Nat → String → Option String)
    (k : Nat) (st : AgentsState) (task_type : String) (model : Option String)
    (h : task_type ∉ knownTaskTypes) :
    route_attempt o llmFault k st task_type model =
      ⟨st, .err (.unknownTaskType task_type), []⟩ := by
  simp only [knownTaskTypes, List.mem_cons, List.not_mem_nil, or_false] at h
  push_neg at h
  obtain ⟨h1, h2, h3, h4, h5, h6, h7, h8, h9, h10, h11⟩ := h
  simp only [route_attempt, if_neg h1, if_neg h2, if_neg h3, if_neg h4, if_neg h5,
    if_neg h6, if_neg h7, if_neg h8, if_neg h9, if_neg h10, if_neg h11]

theorem fallback_guard_iff (o : Orch) (model : Option String) :
    fallback_guard o model = true ↔
      (o.enable_fallback = true ∧ model ≠ some "openai" ∧ "openai" ∈ o.llms) := by
  simp [fallback_guard, contains_iff, and_assoc]

theorem fallback_guard_false_iff (o : Orch) (model : Option String) :
    fallback_guard o model = false ↔
      ¬(o.enable_fallback = true ∧ model ≠ some "openai" ∧ "openai" ∈ o.llms) := by
  rw [← fallback_guard_iff]
  cases fallback_guard o model <;> simp

theorem resolve_target_of_mem (o : Orch) (b : String) (hb : b ∈ o.llms) (hb' : b ≠ "") :
    resolve_target o (some b) = b := by
  simp [resolve_target, hb, hb', (contains_iff o.llms b).mpr hb]

/-- The retry attempt also makes at most one generate call. -/
theorem fallback_attempt_calls_le_one (o : Orch) (llmFault : Nat → String → Option String)
    (st : AgentsState) (task_type : String) (model : Option String) :
    (fallback_attempt o llmFault st task_type model).calls.length ≤ 1 :=
  route_attempt_calls_le_one o llmFault _ _ task_type (some "openai")

/-- The first generate call of a route is the single call of its first
dispatch attempt. -/
theorem route_request_calls_head (o : Orch) (llmFault : Nat → String → Option String)
    (st : AgentsState) (task_type : String) (model : Option String) (c : Option String)
    (h : (route_attempt o llmFault 0 st task_type model).calls = [c]) :
    (route_request o llmFault st task_type model).calls.head? = some c := by
  cases hres : (route_attempt o llmFault 0 st task_type model).res with
  | ok v => rw [route_request_of_ok o llmFault st task_type model v hres, h]; rfl
  | err e =>
    by_cases hg : fallback_guard o model = true
    · rw [route_request_of_err_fb o llmFault st task_type model e hres hg]
      simp [h]
    · have hg' : fallback_guard o model = false := by
        cases hfb : fallback_guard o model
        · rfl
        · exact absurd hfb hg
      rw [route_request_of_err_nofb o llmFault st task_type model e hres hg', h]
      rfl

/-- C1 (code bug evaluation): the spec requires the agent current-backend
binding to be restored unconditionally, also on a thrown fault; evaluated
at the failing input (task generate, requested registered backend gemini
whose generate faults, fallback disabled, agent initially bound to claude),
route_request raises the provider fault but leaves the code generator
bound to gemini, not to the claude binding it held before the call. -/
theorem C1_restore_skipped_on_fault :
    (route_request orchCG geminiDown agentsClaude "generate" (some "gemini")).res
      = .err (.providerError "gemini down")
    ∧ (route_request orchCG geminiDown agentsClaude "generate" (some "gemini")).agents.code_generator
      = some "gemini"
    ∧ agentsClaude.code_generator = some "claude" := by
  decide

/-- C2 (counterexample): with openai the primary and only backend,
fallback enabled and no backend name requested, a faulting dispatch is
retried on openai even though the backend actually used was already
openai: route_request makes two generate calls, both on openai, where the
claim requires no retry at all. -/
theorem C2_counterexample :
    (route_request orchO allDown agentsOpenai "generate" none).calls
      = [some "openai", some "openai"]
    ∧ (route_request orchO allDown agentsOpenai "generate" none).res
      = .err (.providerError "second failure") := by
  decide

/-- C2 (amended): the fallback test is on the requested backend name, not
on the backend actually used: after a faulting first attempt, route_request
performs exactly one retry targeting openai if and only if fallback is
enabled, the requested model argument is not openai, and openai is
registered; otherwise it raises the first failure. -/
theorem C2_retry_iff_requested_name (o : Orch) (llmFault : Nat → String → Option String)
    (st : AgentsState) (task_type : String) (model : Option String) (e : RouteError)
    (h : (route_attempt o llmFault 0 st task_type model).res = .err e) :
    route_request o llmFault st task_type model =
      if o.enable_fallback = true ∧ model ≠ some "openai" ∧ "openai" ∈ o.llms then
        ⟨(fallback_attempt o llmFault st task_type model).agents,
         (fallback_attempt o llmFault st task_type model).res,
         (route_attempt o llmFault 0 st task_type model).calls ++
           (fallback_attempt o llmFault st task_type model).calls⟩
      else route_attempt o llmFault 0 st task_type model := by
  by_cases hg : o.enable_fallback = true ∧ model ≠ some "openai" ∧ "openai" ∈ o.llms
  · rw [if_pos hg]
    exact route_request_of_err_fb o llmFault st task_type model e h
      ((fallback_guard_iff o model).mpr hg)
  · rw [if_neg hg]
    exact route_request_of_err_nofb o llmFault st task_type model e h
      ((fallback_guard_false_iff o model).mpr hg)

/-- C2 witness: the amended statement evaluated with primary claude
faulting, no requested name, openai registered, fallback enabled. -/
theorem C2_retry_iff_requested_name_witness :
    (route_attempt orchCO claudeDown 0 agentsClaude "generate" none).res
      = .err (.providerError "claude down")
    ∧ route_request orchCO claudeDown agentsClaude "generate" none =
      (if orchCO.enable_fallback = true ∧ (none : Option String) ≠ some "openai"
          ∧ "openai" ∈ orchCO.llms then
        ⟨(fallback_attempt orchCO claudeDown agentsClaude "generate" none).agents,
         (fallback_attempt orchCO claudeDown agentsClaude "generate" none).res,
         (route_attempt orchCO claudeDown 0 agentsClaude "generate" none).calls ++
           (fallback_attempt orchCO claudeDown agentsClaude "generate" none).calls⟩
      else route_attempt orchCO claudeDown 0 agentsClaude "generate" none) :=
  ⟨by decide,
   C2_retry_iff_requested_name orchCO claudeDown agentsClaude "generate" none
     (.providerError "claude down") (by decide)⟩

/-- C3 (counterexample): gemini is registered and explicitly requested,
yet the quick-check route invokes generate on the binding the reviewer
agent already held (claude), not on gemini. -/
theorem C3_counterexample :
    (route_request orchCG allUp agentsClaude "quick-check" (some "gemini")).calls
      = [some "claude"]
    ∧ "gemini" ∈ orchCG.llms
    ∧ (some "claude" : Option String) ≠ some "gemini" := by
  refine ⟨by decide, by decide, by decide⟩

/-- C3 (amended): an explicitly requested registered backend name is
dispatched on for exactly the generate, review and architecture task
types; for the remaining eight task types route_request invokes generate
on the binding the responsible agent currently holds, ignoring the
requested name. -/
theorem C3_swap_only_three_tasks (o : Orch) (llmFault : Nat → String → Option String)
    (st : AgentsState) (b : String) (hb : b ∈ o.llms) (hb' : b ≠ "") :
    (route_request o llmFault st "generate" (some b)).calls.head? = some (some b)
    ∧ (route_request o llmFault st "review" (some b)).calls.head? = some (some b)
    ∧ (route_request o llmFault st "architecture" (some b)).calls.head? = some (some b)
    ∧ (route_request o llmFault st "quick-check" (some b)).calls.head? = some st.code_reviewer
    ∧ (route_request o llmFault st "suggest-patterns" (some b)).calls.head? = some st.system_architect
    ∧ (route_request o llmFault st "optimize-architecture" (some b)).calls.head? = some st.system_architect
    ∧ (route_request o llmFault st "analyze-repo" (some b)).calls.head? = some st.github_mcp
    ∧ (route_request o llmFault st "pr-description" (some b)).calls.head? = some st.github_mcp
    ∧ (route_request o llmFault st "code-search" (some b)).calls.head? = some st.github_mcp
    ∧ (route_request o llmFault st "learn" (some b)).calls.head? = some st.self_evolving
    ∧ (route_request o llmFault st "adapt" (some b)).calls.head? = some st.self_evolving := by
  have ht : pyTruthy (some b) = true := by simp [pyTruthy, hb']
  have hr := resolve_target_of_mem o b hb hb'
  refine ⟨?_, ?_, ?_, ?_, ?_, ?_, ?_, ?_, ?_, ?_, ?_⟩ <;>
    apply route_request_calls_head <;>
    simp [route_attempt, ht, hr, dispatch_fixed_calls, dispatch_swap_generator_calls,
      dispatch_swap_reviewer_calls, dispatch_swap_architect_calls]

/-- C3 witness: the amended statement evaluated at the registered
non-primary backend gemini. -/
theorem C3_swap_only_three_tasks_witness :
    (route_request orchCG allUp agentsClaude "generate" (some "gemini")).calls.head?
      = some (some "gemini")
    ∧ (route_request orchCG allUp agentsClaude "quick-check" (some "gemini")).calls.head?
      = some agentsClaude.code_reviewer :=
  ⟨(C3_swap_only_three_tasks orchCG allUp agentsClaude "gemini" (by decide) (by decide)).1,
   (C3_swap_only_three_tasks orchCG allUp agentsClaude "gemini" (by decide) (by decide)).2.2.2.1⟩

/-- C5: after a faulting first attempt with the fallback guard true, if
the single retry targeting openai also faults then route_request raises
exactly that second failure and has made at most two generate calls in
total: no third attempt and no chaining. -/
theorem C5_second_failure_propagates (o : Orch) (llmFault : Nat → String → Option String)
    (st : AgentsState) (task_type : String) (model : Option String) (e1 e2 : RouteError)
    (h1 : (route_attempt o llmFault 0 st task_type model).res = .err e1)
    (hg : fallback_guard o model = true)
    (h2 : (fallback_attempt o llmFault st task_type model).res = .err e2) :
    (route_request o llmFault st task_type model).res = .err e2
    ∧ (route_request o llmFault st task_type model).calls.length ≤ 2 := by
  have heq := route_request_of_err_fb o llmFault st task_type model e1 h1 hg
  constructor
  · rw [heq]
    exact h2
  · rw [heq]
    simp only [List.length_append]
    have a1 := route_attempt_calls_le_one o llmFault 0 st task_type model
    have a2 := fallback_attempt_calls_le_one o llmFault st task_type model
    omega

/-- C5 witness: both the primary claude and the openai retry fault; the
route raises the second failure after exactly two generate calls. -/
theorem C5_second_failure_propagates_witness :
    (route_attempt orchCO allDown 0 agentsClaude "generate" none).res
      = .err (.providerError "first failure")
    ∧ fallback_guard orchCO none = true
    ∧ (fallback_attempt orchCO allDown agentsClaude "generate" none).res
      = .err (.providerError "second failure")
    ∧ ((route_request orchCO allDown agentsClaude "generate" none).res
        = .err (.providerError "second failure")
      ∧ (route_request orchCO allDown agentsClaude "generate" none).calls.length ≤ 2) :=
  ⟨by decide, by decide, by decide,
   C5_second_failure_propagates orchCO allDown agentsClaude "generate" none
     (.providerError "first failure") (.providerError "second failure")
     (by decide) (by decide) (by decide)⟩

/-- C6: a task type outside the eleven known ones makes route_request
raise the unknown task type error for every payload, requested name and
fallback configuration: the fallback path never converts or swallows it. -/
theorem C6_unknown_task_type (o : Orch) (llmFault : Nat → String → Option String)
    (st : AgentsState) (task_type : String) (model : Option String)
    (h : task_type ∉ knownTaskTypes) :
    (route_request o llmFault st task_type model).res
      = .err (.unknownTaskType task_type) := by
  have ha := route_attempt_unknown o llmFault 0 st task_type model h
  have hres : (route_attempt o llmFault 0 st task_type model).res
      = .err (.unknownTaskType task_type) := by rw [ha]
  by_cases hg : fallback_guard o model = true
  · rw [route_request_of_err_fb o llmFault st task_type model _ hres hg]
    have hb := route_attempt_unknown o llmFault
      (route_attempt o llmFault 0 st task_type model).calls.length
      (route_attempt o llmFault 0 st task_type model).agents task_type (some "openai") h
    simp only [fallback_attempt, hb]
  · have hg' : fallback_guard o model = false := by
      cases hfb : fallback_guard o model
      · rfl
      · exact absurd hfb hg
    rw [route_request_of_err_nofb o llmFault st task_type model _ hres hg', hres]

/-- C6 witness: the translate task type, with fallback enabled and openai
registered, still raises the unknown task type error. -/
theorem C6_unknown_task_type_witness :
    "translate" ∉ knownTaskTypes
    ∧ (route_request orchCO allUp agentsClaude "translate" none).res
      = .err (.unknownTaskType "translate") :=
  ⟨by decide,
   C6_unknown_task_type orchCO allUp agentsClaude "translate" none (by decide)⟩

theorem contains_false (l : List String) (a : String) (h : a ∉ l) :
    l.contains a = false := by
  cases hc : l.contains a
  · rfl
  · exact absurd ((contains_iff l a).mp hc) h

/-- C4 (counterexample): mistral is not registered; a plain stream on the
primary completes normally, but requesting mistral does not fall back to
the primary: the stream output is a single terminal error fragment carrying
the AttributeError of the unbound adapter. -/
theorem C4_counterexample :
    "mistral" ∉ orchCG.llms
    ∧ (stream_generate orchCG sbClaudeOnly agentsClaude none).fst = ["claude fragment"]
    ∧ (stream_generate orchCG sbClaudeOnly agentsClaude (some "mistral")).fst
        = [error_fragment noneTypeError] := by
  decide

/-- C4 (amended): an unknown requested backend name resolves to the
primary only in route_request, which then completes normally on the
primary; stream_generate instead binds no adapter for an unknown truthy
name, the stream attempt faults at once, and when fallback is ineligible
the whole output is the single terminal error fragment of that fault, with
no primary-backend streaming. -/
theorem C4_unknown_name_resolution (o : Orch) (llmFault : Nat → String → Option String)
    (sb : Nat → String → StreamBeh) (st : AgentsState) (s : String)
    (hs : s ≠ "") (hn : s ∉ o.llms)
    (hp : llmFault 0 o.primary_llm = none)
    (hg : fallback_guard o (some s) = false) :
    resolve_target o (some s) = o.primary_llm
    ∧ (route_request o llmFault st "generate" (some s)).res = .ok o.primary_llm
    ∧ (route_request o llmFault st "generate" (some s)).calls = [some o.primary_llm]
    ∧ stream_target o (some s) = none
    ∧ (stream_generate o sb st (some s)).fst = [error_fragment noneTypeError] := by
  have hc : o.llms.contains s = false := contains_false o.llms s hn
  have hres : resolve_target o (some s) = o.primary_llm := by
    simp [resolve_target, hn]
  have hatt : route_attempt o llmFault 0 st "generate" (some s)
      = dispatch_swap_generator llmFault 0 st o.primary_llm := by
    simp [route_attempt, pyTruthy, hs, hres]
  have hdisp : (dispatch_swap_generator llmFault 0 st o.primary_llm).res
        = .ok o.primary_llm
      ∧ (dispatch_swap_generator llmFault 0 st o.primary_llm).calls
        = [some o.primary_llm] := by
    simp [dispatch_swap_generator, call_generate, hp]
  have hroute := route_request_of_ok o llmFault st "generate" (some s) o.primary_llm
    (by rw [hatt]; exact hdisp.1)
  have hstt : stream_target o (some s) = none := by
    simp [stream_target, hs, hn]
  refine ⟨hres, ?_, ?_, hstt, ?_⟩
  · rw [hroute, hatt]
    exact hdisp.1
  · rw [hroute, hatt]
    exact hdisp.2
  · simp [stream_generate, hstt, call_stream, hg]

/-- C4 witness: the amended statement evaluated at the unregistered name
mistral over the claude-gemini registry with fallback disabled. -/
theorem C4_unknown_name_resolution_witness :
    resolve_target orchCG (some "mistral") = orchCG.primary_llm
    ∧ (route_request orchCG allUp agentsClaude "generate" (some "mistral")).res
        = .ok orchCG.primary_llm
    ∧ (route_request orchCG allUp agentsClaude "generate" (some "mistral")).calls
        = [some orchCG.primary_llm]
    ∧ stream_target orchCG (some "mistral") = none
    ∧ (stream_generate orchCG sbClaudeOnly agentsClaude (some "mistral")).fst
        = [error_fragment noneTypeError] :=
  C4_unknown_name_resolution orchCG allUp sbClaudeOnly agentsClaude "mistral"
    (by decide) (by decide) (by decide) (by decide)

/-- C9: when the first stream attempt faults and fallback is ineligible
(disabled, or the requested name is openai, or openai is unregistered),
stream_generate yields the fragments already produced followed by exactly
one terminal error fragment, and the sequence ends; the embedding is a
total function, so nothing is raised to the consumer. -/
theorem C9_terminal_error_fragment (o : Orch) (sb : Nat → String → StreamBeh)
    (st : AgentsState) (model : Option String) (e : String)
    (h1 : (call_stream sb 0 (stream_target o model)).fault = some e)
    (h2 : o.enable_fallback = false ∨ model = some "openai" ∨ "openai" ∉ o.llms) :
    (stream_generate o sb st model).fst
      = (call_stream sb 0 (stream_target o model)).chunks ++ [error_fragment e] := by
  have hg : fallback_guard o model = false := by
    rw [fallback_guard_false_iff]
    rintro ⟨hf, hne, hm⟩
    rcases h2 with h | h | h
    · rw [hf] at h
      exact Bool.noConfusion h
    · exact hne h
    · exact h hm
  simp [stream_generate, h1, hg]

/-- C9 witness: claude is the primary, fallback is disabled, and the
stream faults after two fragments; the output is those fragments and one
terminal error fragment. -/
theorem C9_terminal_error_fragment_witness :
    (call_stream sbMidFault 0 (stream_target orchCG none)).fault = some "rate limited"
    ∧ (stream_generate orchCG sbMidFault agentsClaude none).fst
        = (call_stream sbMidFault 0 (stream_target orchCG none)).chunks
          ++ [error_fragment "rate limited"] :=
  ⟨by decide,
   C9_terminal_error_fragment orchCG sbMidFault agentsClaude none "rate limited"
     (by decide) (Or.inl (by decide))⟩

/-- C7: the adapt history filter selects exactly the records whose stored
task type matches, keeps at most the five most recent matches in insertion
order (all of them when there are five or fewer, the last five when there
are more), and adapt_strategy passes exactly that list to the prompt
construction. -/
theorem C7_adapt_history_filter (hist : List InteractionRecord) (tt : String) :
    (∀ h ∈ relevant_history hist tt, h.previous_interaction.task_type = some tt)
    ∧ (relevant_history hist tt).Sublist hist
    ∧ (relevant_history hist tt).length ≤ 5
    ∧ ((matching_history hist tt).length ≤ 5 →
        relevant_history hist tt = matching_history hist tt)
    ∧ (5 < (matching_history hist tt).length →
        (relevant_history hist tt).length = 5
        ∧ relevant_history hist tt
            = (matching_history hist tt).drop ((matching_history hist tt).length - 5))
    ∧ (∀ dumps gen context, adapt_strategy dumps gen hist tt context =
        match gen (adapt_system_prompt dumps tt (relevant_history hist tt))
            (adapt_user_prompt tt context) with
        | .ok resp => .ok ⟨resp.content, tt, (relevant_history hist tt).length, resp.model⟩
        | .err e => .err e) := by
  refine ⟨?_, ?_, ?_, ?_, ?_, ?_⟩
  · intro h hmem
    have hmem' : h ∈ matching_history hist tt := List.mem_of_mem_drop hmem
    have := (List.mem_filter.mp hmem').2
    exact eq_of_beq this
  · exact (List.drop_sublist _ _).trans (List.filter_sublist _)
  · simp only [relevant_history, List.length_drop]
    omega
  · intro hle
    simp [relevant_history, Nat.sub_eq_zero_of_le hle]
  · intro hgt
    refine ⟨?_, rfl⟩
    simp only [relevant_history, List.length_drop]
    omega
  · intro dumps gen context
    rfl

/-- C7 witness: the filter evaluated on eight records, seven of which
match the generate task type. -/
theorem C7_adapt_history_filter_witness :
    (∀ h ∈ relevant_history hist8 "generate",
        h.previous_interaction.task_type = some "generate")
    ∧ (relevant_history hist8 "generate").Sublist hist8
    ∧ (relevant_history hist8 "generate").length ≤ 5
    ∧ ((matching_history hist8 "generate").length ≤ 5 →
        relevant_history hist8 "generate" = matching_history hist8 "generate")
    ∧ (5 < (matching_history hist8 "generate").length →
        (relevant_history hist8 "generate").length = 5
        ∧ relevant_history hist8 "generate"
            = (matching_history hist8 "generate").drop
                ((matching_history hist8 "generate").length - 5))
    ∧ (∀ dumps gen context, adapt_strategy dumps gen hist8 "generate" context =
        match gen (adapt_system_prompt dumps "generate" (relevant_history hist8 "generate"))
            (adapt_user_prompt "generate" context) with
        | .ok resp =>
          .ok ⟨resp.content, "generate", (relevant_history hist8 "generate").length, resp.model⟩
        | .err e => .err e) :=
  C7_adapt_history_filter hist8 "generate"

/-- C8: initialization raises the fatal no-backends fault exactly when
zero adapters are successfully constructed (one failed construction alone
is never fatal), and on success the registry is the constructed list in
configuration order, with the primary equal to the configured default name
when registered and otherwise the first constructed backend. -/
theorem C8_init_primary_selection (s : Settings) :
    (orchestrator_init s = .noBackendsAvailable ↔ init_llms s = [])
    ∧ (init_llms s = [] ↔
        ¬(s.anthropic_api_key = true ∧ s.claude_ctor_ok = true)
        ∧ ¬(s.openai_api_key = true ∧ s.openai_ctor_ok = true)
        ∧ ¬(s.gemini_api_key = true ∧ s.gemini_ctor_ok = true))
    ∧ (∀ o, orchestrator_init s = .ready o →
        o.llms = init_llms s
        ∧ o.enable_fallback = s.gh_enable_fallback
        ∧ (s.default_model ∈ init_llms s → o.primary_llm = s.default_model)
        ∧ (s.default_model ∉ init_llms s → o.primary_llm = (init_llms s).headD "")) := by
  refine ⟨?_, ?_, ?_⟩
  · cases hll : init_llms s with
    | nil => simp [orchestrator_init, hll]
    | cons first rest => simp [orchestrator_init, hll]
  · obtain ⟨a, ok1, g, ca, oa, ga, dm, ef⟩ := s
    cases a <;> cases ca <;> cases ok1 <;> cases oa <;> cases g <;> cases ga <;>
      simp [init_llms]
  · intro o ho
    cases hll : init_llms s with
    | nil => rw [orchestrator_init, hll] at ho; exact absurd ho (by simp)
    | cons first rest =>
      rw [orchestrator_init, hll] at ho
      simp only [InitResult.ready.injEq] at ho
      subst ho
      refine ⟨rfl, rfl, ?_, ?_⟩
      · intro hmem
        have hc := (contains_iff (first :: rest) s.default_model).mpr hmem
        simp only [hc]
        simp
      · intro hmem
        have hc := contains_false (first :: rest) s.default_model hmem
        simp only [hc]
        simp

/-- C8 witness: claude and openai construct, the gemini key is absent and
the configured default gemini is not registered, so the primary is the
first constructed backend claude. -/
theorem C8_init_primary_selection_witness :
    (orchestrator_init settingsW = .noBackendsAvailable ↔ init_llms settingsW = [])
    ∧ (init_llms settingsW = [] ↔
        ¬(settingsW.anthropic_api_key = true ∧ settingsW.claude_ctor_ok = true)
        ∧ ¬(settingsW.openai_api_key = true ∧ settingsW.openai_ctor_ok = true)
        ∧ ¬(settingsW.gemini_api_key = true ∧ settingsW.gemini_ctor_ok = true))
    ∧ (∀ o, orchestrator_init settingsW = .ready o →
        o.llms = init_llms settingsW
        ∧ o.enable_fallback = settingsW.gh_enable_fallback
        ∧ (settingsW.default_model ∈ init_llms settingsW →
            o.primary_llm = settingsW.default_model)
        ∧ (settingsW.default_model ∉ init_llms settingsW →
            o.primary_llm = (init_llms settingsW).headD "")) :=
  C8_init_primary_selection settingsW

/-- C10: learn_from_feedback is atomic for the interaction history: a
faulting generate call leaves the history unchanged and propagates the
fault, and a successful one appends exactly one new record at the end
while every previously stored record is untouched. -/
theorem C10_learn_atomic (render : PrevInteraction → String → String → String)
    (gen : String → String → GenOutcome) (hist : List InteractionRecord)
    (prev : PrevInteraction) (feedback outcome now : String) :
    (∀ e, gen (render prev feedback outcome) learn_user_prompt = .err e →
        learn_from_feedback render gen hist prev feedback outcome now = (hist, .err e))
    ∧ (∀ resp, gen (render prev feedback outcome) learn_user_prompt = .ok resp →
        learn_from_feedback render gen hist prev feedback outcome now
          = (hist ++ [⟨now, resp.content, prev, feedback, outcome, resp.model⟩],
             .ok ⟨now, resp.content, prev, feedback, outcome, resp.model⟩)
        ∧ (learn_from_feedback render gen hist prev feedback outcome now).fst.take hist.length
            = hist
        ∧ (learn_from_feedback render gen hist prev feedback outcome now).fst.length
            = hist.length + 1) := by
  constructor
  · intro e he
    simp [learn_from_feedback, he]
  · intro resp hr
    refine ⟨by simp [learn_from_feedback, hr], ?_, ?_⟩
    · simp [learn_from_feedback, hr, List.take_left]
    · simp [learn_from_feedback, hr]

/-- C10 witness: a successful generate over the eight-record history. -/
theorem C10_learn_atomic_witness :
    (∀ e, genOk (renderFix ⟨some "generate", "payload"⟩ "good" "success") learn_user_prompt
          = .err e →
        learn_from_feedback renderFix genOk hist8 ⟨some "generate", "payload"⟩
          "good" "success" "t9" = (hist8, .err e))
    ∧ (∀ resp, genOk (renderFix ⟨some "generate", "payload"⟩ "good" "success") learn_user_prompt
          = .ok resp →
        learn_from_feedback renderFix genOk hist8 ⟨some "generate", "payload"⟩
            "good" "success" "t9"
          = (hist8 ++ [⟨"t9", resp.content, ⟨some "generate", "payload"⟩,
                "good", "success", resp.model⟩],
             .ok ⟨"t9", resp.content, ⟨some "generate", "payload"⟩,
                "good", "success", resp.model⟩)
        ∧ (learn_from_feedback renderFix genOk hist8 ⟨some "generate", "payload"⟩
            "good" "success" "t9").fst.take hist8.length = hist8
        ∧ (learn_from_feedback renderFix genOk hist8 ⟨some "generate", "payload"⟩
            "good" "success" "t9").fst.length = hist8.length + 1) :=
  C10_learn_atomic renderFix genOk hist8 ⟨some "generate", "payload"⟩ "good" "success" "t9"

end AICA
